import Mathlib

/-!
Shallow embedding of the Pong game simulation engine
(`src/game/entities.py`, `src/game/ai.py`, `src/game/engine.py`) and of the
high-score manager (`src/utils/high_scores.py`).

Numeric model: Python floats are modelled by exact rationals (`ℚ`).  The one
place the source computes a square root (`_normalize_ball_velocity`, and the
`base_speed` computed in `Ball.__init__`) is irrational in general, so:
  - the velocity renormalization step is modelled over `ℝ` with `Real.sqrt`
    (`normalizeVelocity` below), exactly mirroring the source's formula; and
  - `Ball.init` receives the magnitude `sqrt(vx² + vy²)` as an extra rational
    argument `mag`; theorems that depend on it carry the hypothesis
    `mag ^ 2 = vx ^ 2 + vy ^ 2 ∧ 0 ≤ mag`, or are instantiated at inputs whose
    magnitude is rational.
Callback dispatch (`_trigger_callbacks`, trail callbacks) is modelled by an
`events` list accumulated during a single `update` call: each element records
one notification point in the source; delivery to individual registered sinks
is presentation-side and not modelled.
-/

namespace Pong

/-- Constants from the top of `engine.py`. -/
def PADDLE_WIDTH : ℚ := 10

/-- Paddle height in pixels (`engine.py`). -/
def PADDLE_HEIGHT : ℚ := 80

/-- Default paddle speed in px/s (`engine.py`); presets override it. -/
def PADDLE_SPEED : ℚ := 300

/-- Distance of each paddle from the field edge (`engine.py`). -/
def PADDLE_MARGIN : ℚ := 20

/-- Ball radius in pixels (`engine.py`). -/
def BALL_RADIUS : ℚ := 8

/-- Default ball speed in px/s (`engine.py`); presets override it. -/
def BALL_SPEED : ℚ := 250

/-- Spin added per paddle hit (`engine.py`, `PADDLE_HIT_VELOCITY_BOOST`). -/
def PADDLE_HIT_VELOCITY_BOOST : ℚ := 50

/-- AI dead-zone threshold in pixels (`ai.py`, `AI_THRESHOLD`). -/
def AI_THRESHOLD : ℚ := 15

/-- Lower clamp for AI difficulty (`ai.py`). -/
def MIN_DIFFICULTY : ℚ := 0

/-- Upper clamp for AI difficulty (`ai.py`). -/
def MAX_DIFFICULTY : ℚ := 1

/-- Base reaction delay (`ai.py`, `REACTION_DELAY_BASE = 0.05`). -/
def REACTION_DELAY_BASE : ℚ := 1 / 20

/-- Default speed ramp per paddle hit (`entities.py`). -/
def DEFAULT_SPEED_INCREASE_FACTOR : ℚ := 105 / 100

/-- Default cap multiplier on ball speed (`entities.py`). -/
def DEFAULT_MAX_SPEED_MULTIPLIER : ℚ := 5 / 2

/-- The ball entity (`entities.py`, class `Ball`). -/
structure Ball where
  pos : ℚ × ℚ
  radius : ℚ
  vel : ℚ × ℚ
  base_speed : ℚ
  speed : ℚ
  speed_increase_factor : ℚ
  max_speed : ℚ
deriving DecidableEq

/-- `Ball.__init__`: `mag` stands for the float `sqrt(velocity_x² + velocity_y²)`
computed by the source; it is passed in because it is irrational in general.
`base_speed = mag`, `speed = base_speed`, `max_speed = base_speed × max_speed_multiplier`. -/
def Ball.init (x y radius vx vy mag f mult : ℚ) : Ball :=
  { pos := (x, y)
    radius := radius
    vel := (vx, vy)
    base_speed := mag
    speed := mag
    speed_increase_factor := f
    max_speed := mag * mult }

/-- `Ball.update`: `position += velocity * delta_time`. -/
def Ball.update (b : Ball) (dt : ℚ) : Ball :=
  { b with pos := (b.pos.1 + b.vel.1 * dt, b.pos.2 + b.vel.2 * dt) }

/-- `Ball.reflect_x`: negate the horizontal velocity component. -/
def Ball.reflect_x (b : Ball) : Ball :=
  { b with vel := (-b.vel.1, b.vel.2) }

/-- `Ball.reflect_y`: negate the vertical velocity component. -/
def Ball.reflect_y (b : Ball) : Ball :=
  { b with vel := (b.vel.1, -b.vel.2) }

/-- `Ball.increase_speed`: `speed = min(speed * speed_increase_factor, max_speed)`. -/
def Ball.increase_speed (b : Ball) : Ball :=
  { b with speed := min (b.speed * b.speed_increase_factor) b.max_speed }

/-- `Ball.reset_speed`: back to the starting speed. -/
def Ball.reset_speed (b : Ball) : Ball :=
  { b with speed := b.base_speed }

/-- `Ball.get_rect`: bounding box `(left, top, right, bottom)`. -/
def Ball.get_rect (b : Ball) : ℚ × ℚ × ℚ × ℚ :=
  (b.pos.1 - b.radius, b.pos.2 - b.radius, b.pos.1 + b.radius, b.pos.2 + b.radius)

/-- The paddle entity (`entities.py`, class `Paddle`). -/
structure Paddle where
  pos : ℚ × ℚ
  width : ℚ
  height : ℚ
  speed : ℚ
  direction : ℤ
deriving DecidableEq

/-- `Paddle.update`: integrate `direction × speed × dt`, then clamp `y` to
`[0, field_height - height]`. -/
def Paddle.update (p : Paddle) (dt field_height : ℚ) : Paddle :=
  let y := p.pos.2 + (p.direction : ℚ) * p.speed * dt
  { p with pos := (p.pos.1, max 0 (min (field_height - p.height) y)) }

/-- `Paddle.move_up`: direction := -1. -/
def Paddle.move_up (p : Paddle) : Paddle := { p with direction := -1 }

/-- `Paddle.move_down`: direction := 1. -/
def Paddle.move_down (p : Paddle) : Paddle := { p with direction := 1 }

/-- `Paddle.stop`: direction := 0. -/
def Paddle.stop (p : Paddle) : Paddle := { p with direction := 0 }

/-- `Paddle.get_rect`: bounding box `(left, top, right, bottom)`. -/
def Paddle.get_rect (p : Paddle) : ℚ × ℚ × ℚ × ℚ :=
  (p.pos.1, p.pos.2, p.pos.1 + p.width, p.pos.2 + p.height)

/-- `Paddle.get_center_y`: `position.y + height / 2`. -/
def Paddle.get_center_y (p : Paddle) : ℚ := p.pos.2 + p.height / 2

/-- The AI controller state (`ai.py`, class `SimpleAI`).  The Python object also
holds a reference to the paddle it drives; here the paddle is passed to
`SimpleAI.update` explicitly. -/
structure SimpleAI where
  difficulty : ℚ
  reaction_delay : ℚ
deriving DecidableEq

/-- `SimpleAI.__init__`: clamp difficulty to `[0, 1]` and derive the reaction
delay `REACTION_DELAY_BASE * (1 - difficulty)`. -/
def SimpleAI.init (difficulty : ℚ) : SimpleAI :=
  let d := max MIN_DIFFICULTY (min MAX_DIFFICULTY difficulty)
  { difficulty := d
    reaction_delay := REACTION_DELAY_BASE * (1 - d) }

/-- `SimpleAI.update`: per-tick decision.  The source mutates only the paddle's
`direction` (via `move_up` / `move_down` / `stop`) and none of the AI's own
fields; the returned paddle is the controlled paddle after the call.
A `none` ball is the Python `if not ball: return` branch. -/
def SimpleAI.update (ai : SimpleAI) (ball : Option Ball) (paddle : Paddle) : Paddle :=
  match ball with
  | none => paddle
  | some b =>
    let distance := b.pos.2 - paddle.get_center_y
    if |distance| > AI_THRESHOLD then
      if distance > 0 then paddle.move_down else paddle.move_up
    else
      paddle.stop

/-- Game states (`engine.py`: `'menu'`, `'playing'`, `'paused'`, `'game_over'`). -/
inductive GState where
  | menu
  | playing
  | paused
  | game_over
deriving DecidableEq

/-- Which paddle was hit (the `'left'` / `'right'` strings of `engine.py`). -/
inductive Side where
  | left
  | right
deriving DecidableEq

/-- One callback notification point fired during a single `update` call:
`_trail_callback`, `_color_change_callback`, and the two `_trigger_callbacks`
event kinds (`'wall_bounce'`, `'goal'`), plus the combined paddle-hit
notification block of `_handle_paddle_collisions`. -/
inductive Event where
  | trailSegment (prev curr : ℚ × ℚ)
  | colorChange
  | wallBounce (x y : ℚ)
  | paddleHit (side : Side) (hitPos : ℚ) (x y : ℚ)
  | goal (player_left : Bool)
deriving DecidableEq

/-- Difficulty preset keys (`engine.py`, `DIFFICULTY_PRESETS`). -/
inductive Difficulty where
  | easy
  | medium
  | hard
deriving DecidableEq

/-- The value bundle of one difficulty preset. -/
structure Preset where
  name : String
  ai_difficulty : ℚ
  ball_speed : ℚ
  paddle_speed : ℚ
  speed_increase : ℚ
  max_speed_mult : ℚ
deriving DecidableEq

/-- `DIFFICULTY_PRESETS` from `engine.py`. -/
def DIFFICULTY_PRESETS : Difficulty → Preset
  | Difficulty.easy =>
    { name := "Easy", ai_difficulty := 1 / 10, ball_speed := 200,
      paddle_speed := 350, speed_increase := 103 / 100, max_speed_mult := 2 }
  | Difficulty.medium =>
    { name := "Medium", ai_difficulty := 6 / 10, ball_speed := 250,
      paddle_speed := 300, speed_increase := 105 / 100, max_speed_mult := 5 / 2 }
  | Difficulty.hard =>
    { name := "Hard", ai_difficulty := 85 / 100, ball_speed := 320,
      paddle_speed := 270, speed_increase := 108 / 100, max_speed_mult := 3 }

/-- The engine state (`engine.py`, class `PongGame`).  `field_width` and
`field_height` are the integers supplied by the application shell.  `events`
holds the callback notifications fired during the current `update` call. -/
structure PongGame where
  field_width : ℤ
  field_height : ℤ
  difficulty : Difficulty
  ai_difficulty : ℚ
  ball_speed : ℚ
  paddle_speed : ℚ
  speed_increase_factor : ℚ
  max_speed_multiplier : ℚ
  score_left : ℕ
  score_right : ℕ
  game_state : GState
  enable_trail : Bool
  bounce_count : ℕ
  last_ball_position : ℚ × ℚ
  ball : Ball
  paddle_left : Paddle
  paddle_right : Paddle
  ai : SimpleAI
  events : List Event
deriving DecidableEq

/-- `PongGame.reset_ball`.  The source draws `angle ∈ [-0.5, 0.5]` and
`dir ∈ {-1, 1}` from the process-wide random source; they are passed in here.
`mag` is the float `sqrt((ball_speed*dir)² + (ball_speed*angle)²)` computed by
`Ball.__init__` (see `Ball.init`).  Python's `//` (floor division) on the
integer field sizes is `Int.fdiv`. -/
def PongGame.reset_ball (g : PongGame) (angle dir mag : ℚ) : PongGame :=
  let b := Ball.init ((Int.fdiv g.field_width 2 : ℤ) : ℚ) ((Int.fdiv g.field_height 2 : ℤ) : ℚ)
    BALL_RADIUS (g.ball_speed * dir) (g.ball_speed * angle) mag
    g.speed_increase_factor g.max_speed_multiplier
  { g with ball := b, last_ball_position := b.pos }

/-- `PongGame.apply_difficulty_preset`: copy the preset's values into the
engine's tuning attributes. -/
def PongGame.apply_difficulty_preset (g : PongGame) (difficulty : Difficulty) : PongGame :=
  let p := DIFFICULTY_PRESETS difficulty
  { g with ai_difficulty := p.ai_difficulty
           ball_speed := p.ball_speed
           paddle_speed := p.paddle_speed
           speed_increase_factor := p.speed_increase
           max_speed_multiplier := p.max_speed_mult }

/-- `PongGame.set_difficulty`: `apply_difficulty_preset`, then copy the new
`ai_difficulty` into the live AI object.  Nothing else is touched: in
particular the two paddle objects (and their `speed` field, which is what
`Paddle.update` integrates with) and the in-flight ball are left as they are. -/
def PongGame.set_difficulty (g : PongGame) (difficulty : Difficulty) : PongGame :=
  let g1 := g.apply_difficulty_preset difficulty
  { g1 with difficulty := difficulty, ai := { g1.ai with difficulty := g1.ai_difficulty } }

/-- `PongGame.__init__` (together with `_init_paddles`, `_init_ai` and the
initial `reset_ball`).  `angle`, `dir`, `mag` feed the initial `reset_ball`
exactly as in `PongGame.reset_ball`. -/
def PongGame.init (field_width field_height : ℤ) (difficulty : Difficulty)
    (angle dir mag : ℚ) : PongGame :=
  let p := DIFFICULTY_PRESETS difficulty
  let paddle_y : ℚ := ((Int.fdiv field_height 2 - Int.fdiv 80 2 : ℤ) : ℚ)
  let pl : Paddle :=
    { pos := (PADDLE_MARGIN, paddle_y), width := PADDLE_WIDTH, height := PADDLE_HEIGHT,
      speed := p.paddle_speed, direction := 0 }
  let pr : Paddle :=
    { pos := ((field_width : ℚ) - PADDLE_MARGIN - PADDLE_WIDTH, paddle_y),
      width := PADDLE_WIDTH, height := PADDLE_HEIGHT,
      speed := p.paddle_speed, direction := 0 }
  let g0 : PongGame :=
    { field_width := field_width
      field_height := field_height
      difficulty := difficulty
      ai_difficulty := p.ai_difficulty
      ball_speed := p.ball_speed
      paddle_speed := p.paddle_speed
      speed_increase_factor := p.speed_increase
      max_speed_multiplier := p.max_speed_mult
      score_left := 0
      score_right := 0
      game_state := GState.menu
      enable_trail := false
      bounce_count := 0
      last_ball_position := (0, 0)
      ball := Ball.init 0 0 BALL_RADIUS 0 0 0 p.speed_increase p.max_speed_mult
      paddle_left := pl
      paddle_right := pr
      ai := SimpleAI.init p.ai_difficulty
      events := [] }
  g0.reset_ball angle dir mag

/-- `PongGame.check_collision`: AABB overlap test between ball and paddle. -/
def PongGame.check_collision (ball : Ball) (paddle : Paddle) : Bool :=
  let br := ball.get_rect
  let pr := paddle.get_rect
  decide (br.2.2.1 ≥ pr.1) && decide (br.1 ≤ pr.2.2.1) &&
    decide (br.2.2.2 ≥ pr.2.1) && decide (br.2.1 ≤ pr.2.2.2)

/-- `PongGame._calculate_hit_position`:
`(ball.y - paddle.center_y) / (paddle.height / 2)`. -/
def PongGame.calculate_hit_position (ball : Ball) (paddle : Paddle) : ℚ :=
  (ball.pos.2 - paddle.get_center_y) / (paddle.height / 2)

/-- `PongGame._handle_paddle_hit` acting on the ball: reposition flush against
the paddle, `reflect_x`, `increase_speed`, then add
`hit_position × PADDLE_HIT_VELOCITY_BOOST` to `velocity.y`. -/
def PongGame.handle_paddle_hit (b : Ball) (paddle : Paddle) (side : Side) : Ball :=
  let b1 : Ball :=
    { b with pos := (if side = Side.left then paddle.pos.1 + paddle.width + b.radius
                     else paddle.pos.1 - b.radius, b.pos.2) }
  let b2 := b1.reflect_x
  let b3 := b2.increase_speed
  let hp := PongGame.calculate_hit_position b3 paddle
  { b3 with vel := (b3.vel.1, b3.vel.2 + hp * PADDLE_HIT_VELOCITY_BOOST) }

/-- `PongGame._handle_wall_collisions`: on contact with the top or bottom wall,
`reflect_y`, clamp the ball's `y` into `[radius, field_height - radius]`, fire
the trail color change (when enabled) and the `wall_bounce` notification. -/
def PongGame.handle_wall_collisions (g : PongGame) : PongGame :=
  let ballX := g.ball.pos.1
  let ballY := g.ball.pos.2
  if ballY - g.ball.radius ≤ 0 ∨ ballY + g.ball.radius ≥ (g.field_height : ℚ) then
    let b1 := g.ball.reflect_y
    let by2 := max g.ball.radius (min ((g.field_height : ℚ) - g.ball.radius) ballY)
    let b2 : Ball := { b1 with pos := (b1.pos.1, by2) }
    let colorEv : List Event := if g.enable_trail then [Event.colorChange] else []
    { g with ball := b2, events := g.events ++ colorEv ++ [Event.wallBounce ballX by2] }
  else
    g

/-- `PongGame._handle_paddle_collisions`: test the (possibly already
left-reflected) ball against each paddle in turn; a left hit also increments
`bounce_count`; if either hit, fire one combined paddle-hit notification using
the last hit's position and the ball coordinates captured on entry. -/
def PongGame.handle_paddle_collisions (g : PongGame) : PongGame :=
  let ballX := g.ball.pos.1
  let ballY := g.ball.pos.2
  let hitLeft := PongGame.check_collision g.ball g.paddle_left
  let g1 := if hitLeft then
      { g with ball := PongGame.handle_paddle_hit g.ball g.paddle_left Side.left,
               bounce_count := g.bounce_count + 1 }
    else g
  let hpLeft := PongGame.calculate_hit_position g1.ball g.paddle_left
  let hitRight := PongGame.check_collision g1.ball g.paddle_right
  let g2 := if hitRight then
      { g1 with ball := PongGame.handle_paddle_hit g1.ball g.paddle_right Side.right }
    else g1
  let hpRight := PongGame.calculate_hit_position g2.ball g.paddle_right
  if hitLeft || hitRight then
    let side := if hitRight then Side.right else Side.left
    let hp := if hitRight then hpRight else hpLeft
    let colorEv : List Event := if g.enable_trail then [Event.colorChange] else []
    { g2 with events := g2.events ++ colorEv ++ [Event.paddleHit side hp ballX ballY] }
  else
    g2

/-- `PongGame._handle_goals`: strict comparisons against `0` and
`field_width`; either branch sets `game_over` and fires one `goal`
notification. -/
def PongGame.handle_goals (g : PongGame) : PongGame :=
  if g.ball.pos.1 < 0 then
    { g with game_state := GState.game_over, events := g.events ++ [Event.goal false] }
  else if g.ball.pos.1 > (g.field_width : ℚ) then
    { g with game_state := GState.game_over, events := g.events ++ [Event.goal true] }
  else
    g

/-- The motion part of `PongGame.update`: AI decision on the right paddle,
paddle integration, ball integration, and the trail-segment callback (fired
when `enable_trail` holds, with the previous and current ball positions). -/
def PongGame.move_phase (g : PongGame) (dt : ℚ) : PongGame :=
  let g1 : PongGame := { g with paddle_right := g.ai.update (some g.ball) g.paddle_right }
  let g2 : PongGame :=
    { g1 with paddle_left := g1.paddle_left.update dt (g1.field_height : ℚ),
              paddle_right := g1.paddle_right.update dt (g1.field_height : ℚ) }
  let g3 : PongGame := { g2 with ball := g2.ball.update dt }
  if g3.enable_trail then
    { g3 with events := g3.events ++ [Event.trailSegment g3.last_ball_position g3.ball.pos] }
  else g3

/-- `PongGame.update(delta_time)` up to (but not including) the final
`_normalize_ball_velocity` step, which is the one irrational computation of the
tick and is modelled separately over `ℝ` (`normalizeVelocity` /
`PongGame.update_velocity`); normalization touches only `ball.velocity`, so
every other attribute of the post-`update` state is exactly this function's
result.  `events` is reset on entry and collects this call's notifications;
`PongGame.move_phase` is the AI / paddle / ball integration and trail part of
the tick. -/
def PongGame.update_pre (g : PongGame) (dt : ℚ) : PongGame :=
  let g0 : PongGame := { g with events := ([] : List Event) }
  if g0.game_state ≠ GState.playing then
    { g0 with paddle_left := g0.paddle_left.stop, paddle_right := g0.paddle_right.stop }
  else
    let g3 := (((g0.move_phase dt).handle_wall_collisions).handle_paddle_collisions).handle_goals
    { g3 with last_ball_position := g3.ball.pos }

/-- `PongGame._normalize_ball_velocity` in exact real arithmetic:
`current = sqrt(vx² + vy²)`; if `current > 0`, multiply both components by
`speed / current`, otherwise leave the velocity untouched. -/
noncomputable def normalizeVelocity (vel : ℝ × ℝ) (speed : ℝ) : ℝ × ℝ :=
  let current := Real.sqrt (vel.1 ^ 2 + vel.2 ^ 2)
  if 0 < current then (vel.1 * (speed / current), vel.2 * (speed / current)) else vel

/-- The ball velocity after a full `PongGame.update(delta_time)` call, in exact
real arithmetic: when `playing`, the velocity left by the tick pipeline
(`PongGame.update_pre`) renormalized to the ball's current `speed`; otherwise
the early return leaves the velocity as it was. -/
noncomputable def PongGame.update_velocity (g : PongGame) (dt : ℚ) : ℝ × ℝ :=
  if g.game_state = GState.playing then
    let g1 := g.update_pre dt
    normalizeVelocity ((g1.ball.vel.1 : ℝ), (g1.ball.vel.2 : ℝ)) (g1.ball.speed : ℝ)
  else
    ((g.ball.vel.1 : ℝ), (g.ball.vel.2 : ℝ))

section NormalizeLemmas

lemma sq_sum_pos_of_ne_zero {v : ℝ × ℝ} (hv : v ≠ 0) : 0 < v.1 ^ 2 + v.2 ^ 2 := by
  rcases eq_or_ne v.1 0 with h1 | h1
  · rcases eq_or_ne v.2 0 with h2 | h2
    · exact absurd (Prod.ext h1 h2) hv
    · have h2' : 0 < v.2 ^ 2 := (sq_nonneg v.2).lt_of_ne' (pow_ne_zero 2 h2)
      nlinarith [sq_nonneg v.1]
  · have h1' : 0 < v.1 ^ 2 := (sq_nonneg v.1).lt_of_ne' (pow_ne_zero 2 h1)
    nlinarith [sq_nonneg v.2]

/-- Renormalization really produces a vector of Euclidean length `speed`
whenever the input is nonzero and the target speed is nonnegative. -/
lemma normalizeVelocity_mag (v : ℝ × ℝ) (s : ℝ) (hv : v ≠ 0) (hs : 0 ≤ s) :
    Real.sqrt ((normalizeVelocity v s).1 ^ 2 + (normalizeVelocity v s).2 ^ 2) = s := by
  have hpos : 0 < v.1 ^ 2 + v.2 ^ 2 := sq_sum_pos_of_ne_zero hv
  have hc : 0 < Real.sqrt (v.1 ^ 2 + v.2 ^ 2) := Real.sqrt_pos.mpr hpos
  have hc2 : Real.sqrt (v.1 ^ 2 + v.2 ^ 2) ^ 2 = v.1 ^ 2 + v.2 ^ 2 :=
    Real.sq_sqrt hpos.le
  unfold normalizeVelocity
  simp only [hc, if_pos]
  set c := Real.sqrt (v.1 ^ 2 + v.2 ^ 2) with hcdef
  have hkey : (v.1 * (s / c)) ^ 2 + (v.2 * (s / c)) ^ 2 = s ^ 2 := by
    have hc0 : c ≠ 0 := ne_of_gt hc
    field_simp
    nlinarith [hc2]
  rw [hkey, Real.sqrt_sq hs]

/-- When the input velocity is zero, the renormalization is skipped. -/
lemma normalizeVelocity_zero (s : ℝ) : normalizeVelocity 0 s = 0 := by
  unfold normalizeVelocity
  norm_num

end NormalizeLemmas

section BallSpeedLemmas

lemma increase_speed_speed (b : Ball) :
    (b.increase_speed).speed = min (b.speed * b.speed_increase_factor) b.max_speed := rfl

lemma increase_speed_max (b : Ball) :
    (b.increase_speed).max_speed = b.max_speed := rfl

lemma increase_speed_factor (b : Ball) :
    (b.increase_speed).speed_increase_factor = b.speed_increase_factor := rfl

lemma iterate_increase_speed_fields (b : Ball) (n : ℕ) :
    (Ball.increase_speed^[n] b).speed_increase_factor = b.speed_increase_factor ∧
    (Ball.increase_speed^[n] b).max_speed = b.max_speed := by
  induction n with
  | zero => simp
  | succ n ih =>
    rw [Function.iterate_succ_apply', increase_speed_factor, increase_speed_max]
    exact ih

lemma iterate_increase_speed_inv (b : Ball) (hf : 1 ≤ b.speed_increase_factor)
    (hs : 0 ≤ b.speed) (hcap : b.speed ≤ b.max_speed) (n : ℕ) :
    0 ≤ (Ball.increase_speed^[n] b).speed ∧
    (Ball.increase_speed^[n] b).speed ≤ b.max_speed := by
  induction n with
  | zero => exact ⟨hs, hcap⟩
  | succ n ih =>
    rw [Function.iterate_succ_apply', increase_speed_speed,
      (iterate_increase_speed_fields b n).1, (iterate_increase_speed_fields b n).2]
    refine ⟨le_min (mul_nonneg ih.1 (zero_le_one.trans hf)) ?_, min_le_right _ _⟩
    exact ih.1.trans ih.2

end BallSpeedLemmas

/-- C3: starting from a freshly constructed ball, any number of paddle hits
(each one calling `Ball.increase_speed` once) leaves `speed` at most
`base_speed × max_speed_multiplier`, and each further hit does not decrease it,
given `speed_increase_factor ≥ 1` (and `max_speed_multiplier ≥ 1`,
`base_speed ≥ 0`, as every difficulty preset satisfies). -/
theorem ball_speed_bounded_monotone (x y radius vx vy mag f mult : ℚ)
    (hmag : 0 ≤ mag) (hf : 1 ≤ f) (hmult : 1 ≤ mult) (n : ℕ) :
    (Ball.increase_speed^[n] (Ball.init x y radius vx vy mag f mult)).speed ≤ mag * mult
    ∧ (Ball.increase_speed^[n] (Ball.init x y radius vx vy mag f mult)).speed
        ≤ (Ball.increase_speed^[n + 1] (Ball.init x y radius vx vy mag f mult)).speed := by
  set b := Ball.init x y radius vx vy mag f mult with hb
  have hf' : 1 ≤ b.speed_increase_factor := hf
  have hs' : 0 ≤ b.speed := hmag
  have hcap' : b.speed ≤ b.max_speed := le_mul_of_one_le_right hmag hmult
  have hmaxb : b.max_speed = mag * mult := rfl
  have hinv := iterate_increase_speed_inv b hf' hs' hcap' n
  refine ⟨hmaxb ▸ hinv.2, ?_⟩
  rw [Function.iterate_succ_apply', increase_speed_speed,
    (iterate_increase_speed_fields b n).1, (iterate_increase_speed_fields b n).2]
  exact le_min (le_mul_of_one_le_right hinv.1 hf) hinv.2

/-- Witness for C3 at a concrete medium-preset ball and three hits. -/
theorem ball_speed_bounded_monotone_witness :
    (0 : ℚ) ≤ 250 ∧ (1 : ℚ) ≤ 105 / 100 ∧ (1 : ℚ) ≤ 5 / 2 ∧
    ((Ball.increase_speed^[3] (Ball.init 400 300 8 (-250) 0 250 (105 / 100) (5 / 2))).speed
        ≤ 250 * (5 / 2)
      ∧ (Ball.increase_speed^[3] (Ball.init 400 300 8 (-250) 0 250 (105 / 100) (5 / 2))).speed
        ≤ (Ball.increase_speed^[3 + 1]
            (Ball.init 400 300 8 (-250) 0 250 (105 / 100) (5 / 2))).speed) :=
  ⟨by norm_num, by norm_num, by norm_num,
    ball_speed_bounded_monotone 400 300 8 (-250) 0 250 (105 / 100) (5 / 2)
      (by norm_num) (by norm_num) (by norm_num) 3⟩

/-- C4: after `Paddle.update(dt, field_height)`, the paddle's `y` lies in
`[0, field_height - height]` (for any `dt ≥ 0`, any direction in `{-1,0,1}`,
and any starting `y`; the field must of course be at least as tall as the
paddle). -/
theorem paddle_update_contained (p : Paddle) (dt H : ℚ)
    (hdt : 0 ≤ dt) (hdir : p.direction = -1 ∨ p.direction = 0 ∨ p.direction = 1)
    (hH : p.height ≤ H) :
    0 ≤ (p.update dt H).pos.2 ∧ (p.update dt H).pos.2 ≤ H - p.height := by
  have hy : (p.update dt H).pos.2 =
      max 0 (min (H - p.height) (p.pos.2 + (p.direction : ℚ) * p.speed * dt)) := rfl
  rw [hy]
  exact ⟨le_max_left 0 _, max_le (by linarith) (min_le_left _ _)⟩

/-- A concrete paddle used by several witnesses (left paddle geometry of the
scenario in the spec, moving down). -/
def samplePaddleDown : Paddle :=
  { pos := (20, 260), width := 10, height := 80, speed := 300, direction := 1 }

/-- A concrete right paddle used by the AI witnesses. -/
def sampleAIPaddle : Paddle :=
  { pos := (770, 260), width := 10, height := 80, speed := 300, direction := 0 }

/-- A concrete ball 40 px below `sampleAIPaddle`'s center. -/
def sampleAIBall : Ball := Ball.init 400 340 8 100 0 100 1 1

/-- Witness for C4: downward-moving paddle at the concrete game geometry. -/
theorem paddle_update_contained_witness :
    ((0 : ℚ) ≤ 1 ∧
      (samplePaddleDown.direction = -1 ∨ samplePaddleDown.direction = 0 ∨
        samplePaddleDown.direction = 1) ∧
      samplePaddleDown.height ≤ 600) ∧
    (0 ≤ (samplePaddleDown.update 1 600).pos.2 ∧
      (samplePaddleDown.update 1 600).pos.2 ≤ 600 - samplePaddleDown.height) :=
  ⟨⟨by norm_num, Or.inr (Or.inr rfl), by norm_num [samplePaddleDown]⟩,
    paddle_update_contained samplePaddleDown 1 600 (by norm_num) (Or.inr (Or.inr rfl))
      (by norm_num [samplePaddleDown])⟩

/-- C7: the AI's per-tick decision with a present ball: stop inside the ±15 px
dead zone, move down when the ball is more than 15 px below the paddle center,
move up when more than 15 px above — and the decision does not depend on the
AI's `difficulty` or `reaction_delay` values. -/
theorem ai_decision_spec (a : SimpleAI) (b : Ball) (p : Paddle) :
    ((|b.pos.2 - p.get_center_y| ≤ AI_THRESHOLD → (a.update (some b) p).direction = 0)
      ∧ (b.pos.2 - p.get_center_y > AI_THRESHOLD → (a.update (some b) p).direction = 1)
      ∧ (b.pos.2 - p.get_center_y < -AI_THRESHOLD → (a.update (some b) p).direction = -1))
    ∧ ∀ a2 : SimpleAI, a.update (some b) p = a2.update (some b) p := by
  have hthr : (0 : ℚ) < AI_THRESHOLD := by norm_num [AI_THRESHOLD]
  refine ⟨⟨?_, ?_, ?_⟩, fun a2 => rfl⟩
  · intro h
    show (if |b.pos.2 - p.get_center_y| > AI_THRESHOLD then _ else p.stop).direction = 0
    rw [if_neg (not_lt.mpr h)]
    rfl
  · intro h
    have habs : |b.pos.2 - p.get_center_y| > AI_THRESHOLD :=
      lt_of_lt_of_le h (le_abs_self _)
    have hpos : b.pos.2 - p.get_center_y > 0 := lt_trans hthr h
    show (if |b.pos.2 - p.get_center_y| > AI_THRESHOLD then
        (if b.pos.2 - p.get_center_y > 0 then p.move_down else p.move_up)
      else p.stop).direction = 1
    rw [if_pos habs, if_pos hpos]
    rfl
  · intro h
    have habs : |b.pos.2 - p.get_center_y| > AI_THRESHOLD := by
      rw [abs_sub_comm]
      calc AI_THRESHOLD < -(b.pos.2 - p.get_center_y) := by linarith
        _ = p.get_center_y - b.pos.2 := by ring
        _ ≤ |p.get_center_y - b.pos.2| := le_abs_self _
    have hneg : ¬ b.pos.2 - p.get_center_y > 0 := by
      intro hc
      linarith
    show (if |b.pos.2 - p.get_center_y| > AI_THRESHOLD then
        (if b.pos.2 - p.get_center_y > 0 then p.move_down else p.move_up)
      else p.stop).direction = -1
    rw [if_pos habs, if_neg hneg]
    rfl

/-- Witness for C7: ball 40 px below the paddle center makes the AI move down,
regardless of difficulty. -/
theorem ai_decision_spec_witness :
    (sampleAIBall.pos.2 - sampleAIPaddle.get_center_y > AI_THRESHOLD) ∧
    ((SimpleAI.init (6 / 10)).update (some sampleAIBall) sampleAIPaddle).direction = 1 :=
  ⟨by norm_num [sampleAIBall, sampleAIPaddle, Ball.init, Paddle.get_center_y, AI_THRESHOLD],
    (ai_decision_spec (SimpleAI.init (6 / 10)) sampleAIBall sampleAIPaddle).1.2.1
      (by norm_num [sampleAIBall, sampleAIPaddle, Ball.init, Paddle.get_center_y,
        AI_THRESHOLD])⟩

/-- C9: passing a null ball to the AI's per-tick decision is a no-op: the
controlled paddle (direction included) is returned unchanged, and the AI state
is untouched (the source method writes none of its own fields). -/
theorem ai_none_noop (a : SimpleAI) (p : Paddle) : a.update none p = p := rfl

section PhaseLemmas

/-- The goal notifications among a list of events, in order. -/
def goalEvents (l : List Event) : List Bool :=
  l.filterMap fun e =>
    match e with
    | Event.goal b => some b
    | _ => none

lemma goalEvents_append (a b : List Event) :
    goalEvents (a ++ b) = goalEvents a ++ goalEvents b := by
  simp [goalEvents]

lemma move_phase_fields (g : PongGame) (dt : ℚ) :
    (g.move_phase dt).game_state = g.game_state ∧
    (g.move_phase dt).field_width = g.field_width ∧
    (g.move_phase dt).ball.speed = g.ball.speed ∧
    (g.move_phase dt).ball.speed_increase_factor = g.ball.speed_increase_factor ∧
    (g.move_phase dt).ball.max_speed = g.ball.max_speed ∧
    goalEvents (g.move_phase dt).events = goalEvents g.events := by
  simp only [PongGame.move_phase]
  split_ifs <;> simp [Ball.update, goalEvents]

lemma handle_wall_fields (g : PongGame) :
    (g.handle_wall_collisions).game_state = g.game_state ∧
    (g.handle_wall_collisions).field_width = g.field_width ∧
    (g.handle_wall_collisions).ball.speed = g.ball.speed ∧
    (g.handle_wall_collisions).ball.speed_increase_factor = g.ball.speed_increase_factor ∧
    (g.handle_wall_collisions).ball.max_speed = g.ball.max_speed ∧
    goalEvents (g.handle_wall_collisions).events = goalEvents g.events := by
  simp only [PongGame.handle_wall_collisions]
  split_ifs <;> simp [Ball.reflect_y, goalEvents]

lemma handle_paddle_hit_fields (b : Ball) (p : Paddle) (s : Side) :
    (PongGame.handle_paddle_hit b p s).speed
        = min (b.speed * b.speed_increase_factor) b.max_speed ∧
    (PongGame.handle_paddle_hit b p s).speed_increase_factor = b.speed_increase_factor ∧
    (PongGame.handle_paddle_hit b p s).max_speed = b.max_speed :=
  ⟨rfl, rfl, rfl⟩

lemma handle_paddle_collisions_fields (g : PongGame) :
    (g.handle_paddle_collisions).game_state = g.game_state ∧
    (g.handle_paddle_collisions).field_width = g.field_width ∧
    (g.handle_paddle_collisions).ball.speed_increase_factor = g.ball.speed_increase_factor ∧
    (g.handle_paddle_collisions).ball.max_speed = g.ball.max_speed ∧
    goalEvents (g.handle_paddle_collisions).events = goalEvents g.events := by
  simp only [PongGame.handle_paddle_collisions]
  split_ifs <;>
    simp [goalEvents, (handle_paddle_hit_fields _ _ _).2.1, (handle_paddle_hit_fields _ _ _).2.2]

lemma handle_paddle_collisions_speed_nonneg (g : PongGame)
    (hs : 0 ≤ g.ball.speed) (hf : 0 ≤ g.ball.speed_increase_factor)
    (hM : 0 ≤ g.ball.max_speed) :
    0 ≤ (g.handle_paddle_collisions).ball.speed := by
  have hstep : ∀ (b : Ball) (p : Paddle) (s : Side), 0 ≤ b.speed →
      0 ≤ b.speed_increase_factor → 0 ≤ b.max_speed →
      0 ≤ (PongGame.handle_paddle_hit b p s).speed := by
    intro b p s h1 h2 h3
    rw [(handle_paddle_hit_fields b p s).1]
    exact le_min (mul_nonneg h1 h2) h3
  simp only [PongGame.handle_paddle_collisions]
  split_ifs <;>
    first
      | exact hs
      | exact hstep _ _ _ hs hf hM
      | exact hstep _ _ _ (hstep _ _ _ hs hf hM)
          (by rw [(handle_paddle_hit_fields _ _ _).2.1]; exact hf)
          (by rw [(handle_paddle_hit_fields _ _ _).2.2]; exact hM)

lemma handle_goals_ball (g : PongGame) : (g.handle_goals).ball = g.ball := by
  simp only [PongGame.handle_goals]
  split_ifs <;> rfl

lemma handle_goals_spec (g : PongGame) :
    (g.ball.pos.1 < 0 →
      (g.handle_goals).game_state = GState.game_over ∧
      (g.handle_goals).events = g.events ++ [Event.goal false]) ∧
    (¬ g.ball.pos.1 < 0 → g.ball.pos.1 > (g.field_width : ℚ) →
      (g.handle_goals).game_state = GState.game_over ∧
      (g.handle_goals).events = g.events ++ [Event.goal true]) ∧
    (¬ g.ball.pos.1 < 0 → ¬ g.ball.pos.1 > (g.field_width : ℚ) →
      g.handle_goals = g) := by
  refine ⟨fun h1 => ?_, fun h1 h2 => ?_, fun h1 h2 => ?_⟩
  · simp only [PongGame.handle_goals]
    simp [h1]
  · simp only [PongGame.handle_goals]
    simp [h1, h2]
  · simp only [PongGame.handle_goals]
    simp [h1, h2]

end PhaseLemmas

/-- C8: a call to `update(dt)` while the game is not `playing` only stops both
paddles and returns: directions become `0`, and the ball, paddle positions,
scores, bounce count and game state are unchanged, with no event fired. -/
theorem update_not_playing (g : PongGame) (dt : ℚ) (h : g.game_state ≠ GState.playing) :
    (g.update_pre dt).paddle_left.direction = 0 ∧
    (g.update_pre dt).paddle_right.direction = 0 ∧
    (g.update_pre dt).ball = g.ball ∧
    (g.update_pre dt).paddle_left.pos = g.paddle_left.pos ∧
    (g.update_pre dt).paddle_right.pos = g.paddle_right.pos ∧
    (g.update_pre dt).score_left = g.score_left ∧
    (g.update_pre dt).score_right = g.score_right ∧
    (g.update_pre dt).bounce_count = g.bounce_count ∧
    (g.update_pre dt).game_state = g.game_state ∧
    (g.update_pre dt).events = [] := by
  have hupd : g.update_pre dt =
      { g with events := ([] : List Event), paddle_left := g.paddle_left.stop,
               paddle_right := g.paddle_right.stop } := by
    simp only [PongGame.update_pre]
    rw [if_pos]
    exact h
  rw [hupd]
  simp [Paddle.stop]

/-- A concrete freshly constructed game (medium preset, 800×600, initial ball
served to the right with no vertical angle), still in the menu state. -/
def sampleMenuGame : PongGame := PongGame.init 800 600 Difficulty.medium 0 1 250

/-- Witness for C8 at a concrete non-playing (menu) game state. -/
theorem update_not_playing_witness :
    sampleMenuGame.game_state ≠ GState.playing ∧
    ((sampleMenuGame.update_pre 1).paddle_left.direction = 0 ∧
      (sampleMenuGame.update_pre 1).paddle_right.direction = 0 ∧
      (sampleMenuGame.update_pre 1).ball = sampleMenuGame.ball ∧
      (sampleMenuGame.update_pre 1).paddle_left.pos = sampleMenuGame.paddle_left.pos ∧
      (sampleMenuGame.update_pre 1).paddle_right.pos = sampleMenuGame.paddle_right.pos ∧
      (sampleMenuGame.update_pre 1).score_left = sampleMenuGame.score_left ∧
      (sampleMenuGame.update_pre 1).score_right = sampleMenuGame.score_right ∧
      (sampleMenuGame.update_pre 1).bounce_count = sampleMenuGame.bounce_count ∧
      (sampleMenuGame.update_pre 1).game_state = sampleMenuGame.game_state ∧
      (sampleMenuGame.update_pre 1).events = []) :=
  ⟨by simp [sampleMenuGame, PongGame.init, PongGame.reset_ball],
    update_not_playing sampleMenuGame 1
      (by simp [sampleMenuGame, PongGame.init, PongGame.reset_ball])⟩

/-- C1 (amended): switching the difficulty preset updates the engine's stored
`paddle_speed` parameter and the AI's `difficulty` immediately, but the two
paddle entities keep their previous `speed` (the value `Paddle.update`
integrates with) — `set_difficulty` leaves both paddle objects, and the
in-flight ball with its `speed` / `max_speed` / `speed_increase_factor`,
completely unchanged; the new `ball_speed`, `speed_increase_factor` and
`max_speed_multiplier` take effect at the next `reset_ball`. -/
theorem set_difficulty_spec (g : PongGame) (d : Difficulty) (angle dir mag : ℚ) :
    (g.set_difficulty d).paddle_speed = (DIFFICULTY_PRESETS d).paddle_speed ∧
    (g.set_difficulty d).ai.difficulty = (DIFFICULTY_PRESETS d).ai_difficulty ∧
    (g.set_difficulty d).paddle_left = g.paddle_left ∧
    (g.set_difficulty d).paddle_right = g.paddle_right ∧
    (g.set_difficulty d).ball = g.ball ∧
    ((g.set_difficulty d).reset_ball angle dir mag).ball.speed_increase_factor
        = (DIFFICULTY_PRESETS d).speed_increase ∧
    ((g.set_difficulty d).reset_ball angle dir mag).ball.max_speed
        = mag * (DIFFICULTY_PRESETS d).max_speed_mult ∧
    ((g.set_difficulty d).reset_ball angle dir mag).ball.vel
        = ((DIFFICULTY_PRESETS d).ball_speed * dir, (DIFFICULTY_PRESETS d).ball_speed * angle) ∧
    ((g.set_difficulty d).reset_ball angle dir mag).ball.speed = mag :=
  ⟨rfl, rfl, rfl, rfl, rfl, rfl, rfl, rfl, rfl⟩

lemma update_pre_playing_eq (g : PongGame) (dt : ℚ) (hplay : g.game_state = GState.playing) :
    g.update_pre dt =
      { (((({ g with events := ([] : List Event) } : PongGame).move_phase
            dt).handle_wall_collisions).handle_paddle_collisions).handle_goals with
        last_ball_position :=
          ((((({ g with events := ([] : List Event) } : PongGame).move_phase
            dt).handle_wall_collisions).handle_paddle_collisions).handle_goals).ball.pos } := by
  simp only [PongGame.update_pre]
  rw [if_neg (fun hc => hc hplay)]

lemma update_pre_playing_ball (g : PongGame) (dt : ℚ)
    (hplay : g.game_state = GState.playing) :
    (g.update_pre dt).ball =
      (((({ g with events := ([] : List Event) } : PongGame).move_phase
        dt).handle_wall_collisions).handle_paddle_collisions).ball := by
  rw [update_pre_playing_eq g dt hplay]
  exact handle_goals_ball _

lemma update_pre_speed_nonneg (g : PongGame) (dt : ℚ)
    (hplay : g.game_state = GState.playing)
    (hs : 0 ≤ g.ball.speed) (hf : 0 ≤ g.ball.speed_increase_factor)
    (hM : 0 ≤ g.ball.max_speed) :
    0 ≤ (g.update_pre dt).ball.speed := by
  rw [update_pre_playing_ball g dt hplay]
  apply handle_paddle_collisions_speed_nonneg
  · rw [(handle_wall_fields _).2.2.1, (move_phase_fields _ _).2.2.1]
    exact hs
  · rw [(handle_wall_fields _).2.2.2.1, (move_phase_fields _ _).2.2.2.1]
    exact hf
  · rw [(handle_wall_fields _).2.2.2.2.1, (move_phase_fields _ _).2.2.2.2.1]
    exact hM

/-- C6: during an `update(dt)` made while `playing`, if the ball ends up at
`x < 0` the state becomes `game_over` and exactly one `goal` notification with
`player_left = False` fires; if it ends up at `x > field_width`, `game_over`
with exactly one `goal(player_left = True)`; and no `goal` notification fires
(and the state stays `playing`) when `0 ≤ x ≤ field_width`. -/
theorem update_goal_detection (g : PongGame) (dt : ℚ)
    (hplay : g.game_state = GState.playing) (hW : 0 ≤ g.field_width) :
    ((g.update_pre dt).ball.pos.1 < 0 →
      (g.update_pre dt).game_state = GState.game_over ∧
      goalEvents (g.update_pre dt).events = [false]) ∧
    ((g.update_pre dt).ball.pos.1 > (g.field_width : ℚ) →
      (g.update_pre dt).game_state = GState.game_over ∧
      goalEvents (g.update_pre dt).events = [true]) ∧
    (0 ≤ (g.update_pre dt).ball.pos.1 → (g.update_pre dt).ball.pos.1 ≤ (g.field_width : ℚ) →
      goalEvents (g.update_pre dt).events = [] ∧
      (g.update_pre dt).game_state = GState.playing) := by
  set g2 : PongGame :=
    (((({ g with events := ([] : List Event) } : PongGame).move_phase
      dt).handle_wall_collisions).handle_paddle_collisions) with hg2
  have hstate : g2.game_state = GState.playing := by
    rw [hg2, (handle_paddle_collisions_fields _).1, (handle_wall_fields _).1,
      (move_phase_fields _ _).1]
    exact hplay
  have hgoalev : goalEvents g2.events = [] := by
    rw [hg2, (handle_paddle_collisions_fields _).2.2.2.2, (handle_wall_fields _).2.2.2.2.2,
      (move_phase_fields _ _).2.2.2.2.2]
    rfl
  have hwidth : g2.field_width = g.field_width := by
    rw [hg2, (handle_paddle_collisions_fields _).2.1, (handle_wall_fields _).2.1,
      (move_phase_fields _ _).2.1]
  have hball : (g.update_pre dt).ball = g2.ball := by
    rw [update_pre_playing_eq g dt hplay]
    exact handle_goals_ball _
  have hstate' : (g.update_pre dt).game_state = (g2.handle_goals).game_state := by
    rw [update_pre_playing_eq g dt hplay]
  have hev : (g.update_pre dt).events = (g2.handle_goals).events := by
    rw [update_pre_playing_eq g dt hplay]
  have hW' : (0 : ℚ) ≤ (g.field_width : ℚ) := by exact_mod_cast hW
  refine ⟨fun hx => ?_, fun hx => ?_, fun hx1 hx2 => ?_⟩
  · rw [hball] at hx
    obtain ⟨hgs, hge⟩ := (handle_goals_spec g2).1 hx
    refine ⟨by rw [hstate', hgs], ?_⟩
    rw [hev, hge, goalEvents_append, hgoalev]
    rfl
  · rw [hball] at hx
    have hx2 : g2.ball.pos.1 > (g2.field_width : ℚ) := by
      rw [hwidth]
      exact hx
    have hnx : ¬ g2.ball.pos.1 < 0 := by
      push_neg
      calc (0 : ℚ) ≤ (g.field_width : ℚ) := hW'
        _ ≤ g2.ball.pos.1 := le_of_lt hx
    obtain ⟨hgs, hge⟩ := (handle_goals_spec g2).2.1 hnx hx2
    refine ⟨by rw [hstate', hgs], ?_⟩
    rw [hev, hge, goalEvents_append, hgoalev]
    rfl
  · rw [hball] at hx1 hx2
    have hnx1 : ¬ g2.ball.pos.1 < 0 := not_lt.mpr hx1
    have hnx2 : ¬ g2.ball.pos.1 > (g2.field_width : ℚ) := by
      rw [hwidth]
      exact not_lt.mpr hx2
    have heq := (handle_goals_spec g2).2.2 hnx1 hnx2
    constructor
    · rw [hev, heq]
      exact hgoalev
    · rw [hstate', heq]
      exact hstate

/-- A concrete game on the medium preset with a ball in flight (`playing`). -/
def cxGame : PongGame :=
  { PongGame.init 800 600 Difficulty.medium 0 1 250 with game_state := GState.playing }

/-- Counterexample to C1 as stated: switching the preset from medium to easy
mid-flight does NOT update the paddles' speed — both paddles still move at the
medium preset's 300 px/s, not the easy preset's 350 px/s. -/
theorem set_difficulty_paddle_speed_cx :
    (cxGame.set_difficulty Difficulty.easy).paddle_left.speed = 300 ∧
    (cxGame.set_difficulty Difficulty.easy).paddle_right.speed = 300 ∧
    (DIFFICULTY_PRESETS Difficulty.easy).paddle_speed = 350 ∧
    (cxGame.set_difficulty Difficulty.easy).paddle_left.speed ≠
      (DIFFICULTY_PRESETS Difficulty.easy).paddle_speed :=
  ⟨rfl, rfl, rfl, by decide⟩

/-- Witness for C6 at the concrete playing game `cxGame` and `dt = 0`. -/
theorem update_goal_detection_witness :
    cxGame.game_state = GState.playing ∧ 0 ≤ cxGame.field_width ∧
    ((((cxGame.update_pre 0).ball.pos.1 < 0 →
        (cxGame.update_pre 0).game_state = GState.game_over ∧
        goalEvents (cxGame.update_pre 0).events = [false]) ∧
      ((cxGame.update_pre 0).ball.pos.1 > (cxGame.field_width : ℚ) →
        (cxGame.update_pre 0).game_state = GState.game_over ∧
        goalEvents (cxGame.update_pre 0).events = [true]) ∧
      (0 ≤ (cxGame.update_pre 0).ball.pos.1 →
        (cxGame.update_pre 0).ball.pos.1 ≤ (cxGame.field_width : ℚ) →
        goalEvents (cxGame.update_pre 0).events = [] ∧
        (cxGame.update_pre 0).game_state = GState.playing))) :=
  ⟨rfl, by decide, update_goal_detection cxGame 0 rfl (by decide)⟩

/-- C2: after any `update(dt)` call made while `playing`, the Euclidean
magnitude of the ball's velocity equals `ball.speed` exactly (in exact real
arithmetic), the renormalization being skipped only when the pipeline left a
zero velocity (in which case the velocity passes through unchanged).  The
nonnegativity hypotheses hold for every ball the engine constructs. -/
theorem update_velocity_magnitude (g : PongGame) (dt : ℚ)
    (hplay : g.game_state = GState.playing)
    (hs : 0 ≤ g.ball.speed) (hf : 0 ≤ g.ball.speed_increase_factor)
    (hM : 0 ≤ g.ball.max_speed) :
    ((g.update_pre dt).ball.vel ≠ (0, 0) →
      Real.sqrt ((g.update_velocity dt).1 ^ 2 + (g.update_velocity dt).2 ^ 2)
        = ((g.update_pre dt).ball.speed : ℝ)) ∧
    ((g.update_pre dt).ball.vel = (0, 0) →
      g.update_velocity dt
        = (((g.update_pre dt).ball.vel.1 : ℝ), ((g.update_pre dt).ball.vel.2 : ℝ))) := by
  have hv : g.update_velocity dt =
      normalizeVelocity
        (((g.update_pre dt).ball.vel.1 : ℝ), ((g.update_pre dt).ball.vel.2 : ℝ))
        ((g.update_pre dt).ball.speed : ℝ) := by
    simp only [PongGame.update_velocity]
    rw [if_pos hplay]
  constructor
  · intro hvne
    rw [hv]
    apply normalizeVelocity_mag
    · intro hc
      apply hvne
      have h1 : (((g.update_pre dt).ball.vel.1 : ℝ)) = 0 := congrArg Prod.fst hc
      have h2 : (((g.update_pre dt).ball.vel.2 : ℝ)) = 0 := congrArg Prod.snd hc
      have h1' : (g.update_pre dt).ball.vel.1 = 0 := by exact_mod_cast h1
      have h2' : (g.update_pre dt).ball.vel.2 = 0 := by exact_mod_cast h2
      exact Prod.ext h1' h2'
    · exact_mod_cast update_pre_speed_nonneg g dt hplay hs hf hM
  · intro hveq
    rw [hv, hveq]
    norm_num [normalizeVelocity]

/-- Witness for C2 at the concrete playing game `cxGame` and `dt = 0`. -/
theorem update_velocity_magnitude_witness :
    cxGame.game_state = GState.playing ∧ 0 ≤ cxGame.ball.speed ∧
    0 ≤ cxGame.ball.speed_increase_factor ∧ 0 ≤ cxGame.ball.max_speed ∧
    ((((cxGame.update_pre 0).ball.vel ≠ (0, 0) →
        Real.sqrt ((cxGame.update_velocity 0).1 ^ 2 + (cxGame.update_velocity 0).2 ^ 2)
          = ((cxGame.update_pre 0).ball.speed : ℝ)) ∧
      ((cxGame.update_pre 0).ball.vel = (0, 0) →
        cxGame.update_velocity 0
          = (((cxGame.update_pre 0).ball.vel.1 : ℝ), ((cxGame.update_pre 0).ball.vel.2 : ℝ))))) :=
  ⟨rfl,
    by norm_num [cxGame, PongGame.init, PongGame.reset_ball, Ball.init],
    by norm_num [cxGame, PongGame.init, PongGame.reset_ball, Ball.init, DIFFICULTY_PRESETS],
    by norm_num [cxGame, PongGame.init, PongGame.reset_ball, Ball.init, DIFFICULTY_PRESETS],
    update_velocity_magnitude cxGame 0 rfl
      (by norm_num [cxGame, PongGame.init, PongGame.reset_ball, Ball.init])
      (by norm_num [cxGame, PongGame.init, PongGame.reset_ball, Ball.init, DIFFICULTY_PRESETS])
      (by norm_num [cxGame, PongGame.init, PongGame.reset_ball, Ball.init, DIFFICULTY_PRESETS])⟩

/-- The left paddle of the C5 scenario: at `(20, 260)`, size `10 × 80`. -/
def c5Paddle : Paddle :=
  { pos := (20, 260), width := 10, height := 80, speed := 300, direction := 0 }

/-- The ball of the C5 scenario: centered on the paddle's top edge (`y = 260`),
moving left at speed 250, medium-preset ramp parameters. -/
def c5Ball : Ball := Ball.init 30 260 8 (-250) 0 250 (105 / 100) (5 / 2)

/-- C5: the ball colliding with the left paddle while centered on its top edge
and moving left at speed 250: the hit handler yields `speed = 250 × 1.05 =
262.5`, repositions the ball to `paddle.x + paddle.width + radius`, flips the
sign of `velocity.x`, adds `hit_position × 50 = -50` to `velocity.y`
(`hit_position = -1` at the top edge), and the end-of-tick renormalization of
that velocity has Euclidean magnitude exactly `262.5`. -/
theorem paddle_hit_scenario :
    PongGame.check_collision c5Ball c5Paddle = true ∧
    (PongGame.handle_paddle_hit c5Ball c5Paddle Side.left).speed = 250 * (105 / 100) ∧
    (PongGame.handle_paddle_hit c5Ball c5Paddle Side.left).speed = 525 / 2 ∧
    (PongGame.handle_paddle_hit c5Ball c5Paddle Side.left).pos.1
        = c5Paddle.pos.1 + c5Paddle.width + c5Ball.radius ∧
    (PongGame.handle_paddle_hit c5Ball c5Paddle Side.left).vel.1 = -c5Ball.vel.1 ∧
    PongGame.calculate_hit_position (PongGame.handle_paddle_hit c5Ball c5Paddle Side.left)
        c5Paddle = -1 ∧
    (PongGame.handle_paddle_hit c5Ball c5Paddle Side.left).vel.2
        = c5Ball.vel.2 + (-1) * PADDLE_HIT_VELOCITY_BOOST ∧
    Real.sqrt
        ((normalizeVelocity
            (((PongGame.handle_paddle_hit c5Ball c5Paddle Side.left).vel.1 : ℝ),
              ((PongGame.handle_paddle_hit c5Ball c5Paddle Side.left).vel.2 : ℝ))
            ((PongGame.handle_paddle_hit c5Ball c5Paddle Side.left).speed : ℝ)).1 ^ 2 +
          (normalizeVelocity
            (((PongGame.handle_paddle_hit c5Ball c5Paddle Side.left).vel.1 : ℝ),
              ((PongGame.handle_paddle_hit c5Ball c5Paddle Side.left).vel.2 : ℝ))
            ((PongGame.handle_paddle_hit c5Ball c5Paddle Side.left).speed : ℝ)).2 ^ 2)
      = 525 / 2 := by
  have hv1 : (PongGame.handle_paddle_hit c5Ball c5Paddle Side.left).vel.1 = 250 := by
    norm_num [PongGame.handle_paddle_hit, Ball.reflect_x, Ball.increase_speed,
      PongGame.calculate_hit_position, Paddle.get_center_y, PADDLE_HIT_VELOCITY_BOOST,
      c5Ball, c5Paddle, Ball.init]
  have hv2 : (PongGame.handle_paddle_hit c5Ball c5Paddle Side.left).vel.2 = -50 := by
    norm_num [PongGame.handle_paddle_hit, Ball.reflect_x, Ball.increase_speed,
      PongGame.calculate_hit_position, Paddle.get_center_y, PADDLE_HIT_VELOCITY_BOOST,
      c5Ball, c5Paddle, Ball.init]
  have hsp : (PongGame.handle_paddle_hit c5Ball c5Paddle Side.left).speed = 525 / 2 := by
    norm_num [PongGame.handle_paddle_hit, Ball.reflect_x, Ball.increase_speed,
      PongGame.calculate_hit_position, Paddle.get_center_y, min_def,
      c5Ball, c5Paddle, Ball.init]
  refine ⟨?_, ?_, hsp, ?_, ?_, ?_, ?_, ?_⟩
  · norm_num [PongGame.check_collision, Ball.get_rect, Paddle.get_rect,
      c5Ball, c5Paddle, Ball.init]
  · rw [hsp]
    norm_num
  · norm_num [PongGame.handle_paddle_hit, Ball.reflect_x, Ball.increase_speed,
      c5Ball, c5Paddle, Ball.init]
  · rw [hv1]
    norm_num [c5Ball, Ball.init]
  · norm_num [PongGame.handle_paddle_hit, Ball.reflect_x, Ball.increase_speed,
      PongGame.calculate_hit_position, Paddle.get_center_y, PADDLE_HIT_VELOCITY_BOOST,
      c5Ball, c5Paddle, Ball.init]
  · rw [hv2]
    norm_num [c5Ball, Ball.init, PADDLE_HIT_VELOCITY_BOOST]
  · rw [hv1, hv2, hsp]
    have hmag := normalizeVelocity_mag ((250 : ℝ), (-50 : ℝ)) (525 / 2)
      (by norm_num [Prod.ext_iff]) (by norm_num)
    push_cast
    convert hmag using 4

/-- One leaderboard record of `high_scores.py`: `{'name': str, 'score': int}`. -/
structure ScoreEntry where
  name : String
  score : ℤ
deriving DecidableEq

/-- The descending order the manager maintains on its list (`load_scores` and
`add_score` both sort by score, highest first). -/
def ScoresSortedDesc (l : List ScoreEntry) : Prop :=
  List.Chain' (fun a b => b.score ≤ a.score) l

/-- `HighScoreManager.is_high_score`: `False` for `score ≤ 0`; `True` on an
empty leaderboard; otherwise `score > scores[0]['score']`. -/
def is_high_score (scores : List ScoreEntry) (score : ℤ) : Bool :=
  if score ≤ 0 then
    false
  else
    match scores with
    | [] => true
    | e :: _ => decide (score > e.score)

/-- `HighScoreManager.add_score`: append, re-sort descending by score, keep the
top `MAX_SCORES_KEPT = 5`.  (The sort itself is stable-by-insertion in Python;
only the resulting descending order matters here.) -/
def add_score (scores : List ScoreEntry) (name : String) (score : ℤ) : List ScoreEntry :=
  ((scores ++ [({ name := name, score := score } : ScoreEntry)]).mergeSort
    (fun a b => decide (b.score ≤ a.score))).take 5

/-- C10: on a leaderboard kept in descending order, `is_high_score score`
returns `True` exactly when `score > 0` and either the list is empty or
`score` strictly exceeds every stored score (equivalently, the current
highest); in particular a positive score that merely ranks 2nd–5th is not
reported as a high score. -/
theorem is_high_score_iff (l : List ScoreEntry) (s : ℤ) (hsorted : ScoresSortedDesc l) :
    (is_high_score l s = true ↔ 0 < s ∧ (l = [] ∨ ∀ e ∈ l, e.score < s)) := by
  unfold is_high_score
  rcases l with _ | ⟨e, tl⟩
  · split_ifs with h
    · simp [show ¬ (0 : ℤ) < s from not_lt.mpr h]
    · simp [not_le.mp h]
  · have hhead : ∀ x ∈ tl, x.score ≤ e.score := by
      haveI : IsTrans ScoreEntry (fun a b => b.score ≤ a.score) :=
        ⟨fun _ _ _ h1 h2 => le_trans h2 h1⟩
      have hpair := List.chain'_iff_pairwise.mp hsorted
      exact (List.pairwise_cons.mp hpair).1
    split_ifs with h
    · simp [show ¬ (0 : ℤ) < s from not_lt.mpr h]
    · have hs0 : (0 : ℤ) < s := not_le.mp h
      simp only [decide_eq_true_eq, gt_iff_lt]
      constructor
      · intro hgt
        refine ⟨hs0, Or.inr ?_⟩
        intro x hx
        rcases List.mem_cons.mp hx with rfl | hx'
        · exact hgt
        · exact lt_of_le_of_lt (hhead x hx') hgt
      · rintro ⟨_, habs | hall⟩
        · exact absurd habs (by simp)
        · exact hall e (List.mem_cons_self e tl)

/-- The concrete sorted leaderboard used by the C10 witness. -/
def sampleScores : List ScoreEntry :=
  [{ name := "Alice", score := 10 }, { name := "Bob", score := 7 }]

/-- Witness for C10: a score of 8 would rank 2nd on `sampleScores` and is
correctly not reported as a high score. -/
theorem is_high_score_iff_witness :
    ScoresSortedDesc sampleScores ∧
    (is_high_score sampleScores 8 = true ↔
      0 < (8 : ℤ) ∧ (sampleScores = [] ∨ ∀ e ∈ sampleScores, e.score < 8)) :=
  ⟨by norm_num [ScoresSortedDesc, sampleScores, List.chain'_cons],
    is_high_score_iff sampleScores 8
      (by norm_num [ScoresSortedDesc, sampleScores, List.chain'_cons])⟩

end Pong
